import Mathlib

/-!
Verification of the agent-breadcrumbs trace-logging library.

This file shallowly embeds the parts of the repository that the verified
properties speak about:

* `agent_breadcrumbs/schemas.py` — `TokenUsage.calculate_cost` (static price
  table, longest-prefix model-name resolution, cost formula);
* `langchain_tracer/core/tracer.py` — `HTTPTracer._calculate_cost` and
  `HTTPTracer.export_traces`;
* `langchain_tracer/models/trace.py` — `TraceEvent`, `TokenUsage`,
  `to_csv_row`, `to_dict` / `from_dict`;
* `langchain_tracer/storage/csv_storage.py` and `json_storage.py` — the
  buffered stores (`store_trace`, `store_traces`, `flush`, `_flush_buffer`,
  `load_traces`, `clear`, `_csv_row_to_trace`);
* `agent_breadcrumbs/adapters/csv_adapter.py` — `log_action`,
  `_row_to_action`;
* `agent_breadcrumbs/logger.py` — `AgentLogger` session handling.

Modelling conventions (stated once and used throughout):

* Python `int` is `Int`, Python `float` is `Rat` (the cost formula uses exact
  arithmetic; decimal literals such as `0.0025` denote the exact rational).
* `None` / optional values are `Option`.  Python truthiness of an optional
  int (`None` and `0` are falsy) is `pyTruthyInt`; of a string (`""` falsy)
  is handled explicitly at each use site.
* `str.startswith` is prefix on the underlying character list
  (`pyStartsWith`); `key in s` is the infix test (`pyContains`);
  `str.lower()` is `Char.toLower` mapped over the character list (`pyLower`;
  the strings involved are ASCII).
* The CSV text layer is modelled at the level of cell values: Python's `csv`
  module writes `None` as the empty cell and `str(int)` / `str(float)`
  (= `repr`) for numbers, and `int(...)` / `float(...)` parse those strings
  back exactly, so a numeric CSV cell is modelled as `Option Int` /
  `Option Rat` with `none` standing for the empty cell; truthiness of such a
  cell string ("" falsy, "0" truthy) is `Option.isSome`.  Embedded JSON text
  cells (`input_data`, `output_data`, `metadata`) are modelled as the
  structured values they encode, since `json.dumps` / `json.loads` are
  inverse on them.
* `datetime` values are carried as their ISO strings; `fromisoformat`
  composed with `isoformat` is modelled as the `"Z" → "+00:00"` replacement
  the loaders apply.  Timestamps are not among the fields any claim compares.
* Raising an exception is modelled by `Except`; a Python `try`/`except`
  around a fallible block is a `match` on that block's `Except` result.
-/

/-- Python `s.startswith h`, as a prefix test on the character list. -/
def pyStartsWith (s h : String) : Bool :=
  h.data.isPrefixOf s.data

/-- Python `h in s` (substring membership), as an infix test on the character
list. -/
def pyContains (s h : String) : Bool :=
  s.data.tails.any (fun t => h.data.isPrefixOf t)

/-- Python `s.lower()`, as `Char.toLower` mapped over the character list. -/
def pyLower (s : String) : String :=
  ⟨s.data.map Char.toLower⟩

/-- Python truthiness of an `Optional[int]`: `None` and `0` are falsy. -/
def pyTruthyInt : Option Int → Bool
  | none => false
  | some n => n != 0

/-- Python truthiness of an `Optional[str]`: `None` and `""` are falsy. -/
def pyTruthyStr : Option String → Bool
  | none => false
  | some s => s != ""

/-- One entry of the static price table in `TokenUsage.calculate_cost`
(USD per 1K tokens). -/
structure Price where
  input : Rat
  output : Rat
deriving DecidableEq

/-- The `pricing` dict literal of `TokenUsage.calculate_cost`
(`agent_breadcrumbs/schemas.py`), in its insertion order. -/
def pricing : List (String × Price) :=
  [("gpt-4o", ⟨0.0025, 0.010⟩),
   ("gpt-4o-mini", ⟨0.00015, 0.0006⟩),
   ("gpt-4", ⟨0.03, 0.06⟩),
   ("gpt-4-turbo", ⟨0.01, 0.03⟩),
   ("gpt-3.5-turbo", ⟨0.001, 0.002⟩),
   ("gpt-4.1", ⟨0.002, 0.008⟩),
   ("gpt-4.1-mini", ⟨0.0004, 0.0016⟩),
   ("gpt-4.1-nano", ⟨0.0001, 0.0004⟩)]

/-- The keys of the price table, in dict insertion order
(`pricing.keys()`). -/
def pricingKeys : List String :=
  pricing.map Prod.fst

/-- One step of a stable insertion sort by string length, descending: `x` is
placed before the first element that is not strictly longer than it.  This is
the order produced by Python's stable
`sorted(keys, key=len, reverse=True)`. -/
def insertLenDesc (x : String) : List String → List String
  | [] => [x]
  | y :: ys => if x.length < y.length then y :: insertLenDesc x ys else x :: y :: ys

/-- Stable sort by string length, descending (Python
`sorted(..., key=len, reverse=True)`). -/
def sortLenDesc : List String → List String
  | [] => []
  | x :: xs => insertLenDesc x (sortLenDesc xs)

/-- The `for base_name in sorted(pricing.keys(), key=len, reverse=True)`
loop with its `break`: the first length-sorted key that `model_name` starts
with, if any. -/
def resolveKey (model_name : String) : Option String :=
  (sortLenDesc pricingKeys).find? (fun k => pyStartsWith model_name k)

/-- The `model_base` local of `TokenUsage.calculate_cost`: the resolved key,
or `model_name` itself when no key matched. -/
def modelBase (model_name : String) : String :=
  (resolveKey model_name).getD model_name

/-- Dict lookup `pricing[k]` (and the membership test `k in pricing`). -/
def priceLookup (k : String) : Option Price :=
  (pricing.find? (fun e => e.1 == k)).map Prod.snd

/-- Shallow embedding of `TokenUsage.calculate_cost`
(`agent_breadcrumbs/schemas.py`): `None` when either token count is falsy
(absent or zero) or the resolved base name is not in the price table;
otherwise `(prompt_tokens/1000)*input + (completion_tokens/1000)*output`.
The `getD 0` extractions are only reached when both counts are `some`. -/
def calculate_cost (prompt_tokens completion_tokens : Option Int)
    (model_name : String) : Option Rat :=
  if !(pyTruthyInt prompt_tokens) || !(pyTruthyInt completion_tokens) then
    none
  else
    match priceLookup (modelBase model_name) with
    | none => none
    | some pr =>
      let p : Int := prompt_tokens.getD 0
      let c : Int := completion_tokens.getD 0
      let input_cost : Rat := (p : Rat) / 1000 * pr.input
      let output_cost : Rat := (c : Rat) / 1000 * pr.output
      some (input_cost + output_cost)

/-- The documented cost formula, as the spec states it. -/
def specCostFormula (p c : Int) (pr : Price) : Rat :=
  (p : Rat) / 1000 * pr.input + (c : Rat) / 1000 * pr.output

-- ---------------------------------------------------------------------------
-- HTTPTracer._calculate_cost (langchain_tracer/core/tracer.py)
-- ---------------------------------------------------------------------------

/-- Token usage information (`langchain_tracer/models/trace.py`,
dataclass `TokenUsage`; structurally identical to the pydantic `TokenUsage`
of `agent_breadcrumbs/schemas.py`). -/
structure TokenUsage where
  prompt_tokens : Option Int := none
  completion_tokens : Option Int := none
  total_tokens : Option Int := none
deriving DecidableEq

/-- The `cost_per_1k_tokens` dict literal of `HTTPTracer._calculate_cost`,
in its insertion order (USD per 1K total tokens). -/
def tracerPricing : List (String × Rat) :=
  [("gpt-4", 0.03),
   ("gpt-4-turbo", 0.01),
   ("gpt-4o", 0.005),
   ("gpt-4o-mini", 0.00015),
   ("gpt-3.5-turbo", 0.002),
   ("claude-3-opus", 0.015),
   ("claude-3-sonnet", 0.003),
   ("claude-3-haiku", 0.00025)]

/-- The `for key in cost_per_1k_tokens.keys()` loop with its `break`: the
first key, in dict insertion order, that occurs as a substring of
`model_name.lower()`. -/
def tracerResolveKey (model_name : String) : Option String :=
  (tracerPricing.map Prod.fst).find? (fun k => pyContains (pyLower model_name) k)

/-- Dict lookup `cost_per_1k_tokens[k]`. -/
def tracerRateLookup (k : String) : Option Rat :=
  (tracerPricing.find? (fun e => e.1 == k)).map Prod.snd

/-- Shallow embedding of `HTTPTracer._calculate_cost`
(`langchain_tracer/core/tracer.py`): guards on truthiness of
`trace.token_usage` (a present dataclass instance is always truthy) and
`trace.model_name` (absent or `""` falsy); resolves the model by the first
substring-matching table key; requires truthy `total_tokens`; returns
`total_tokens * (rate / 1000)`. -/
def tracer_calculate_cost (token_usage : Option TokenUsage)
    (model_name : Option String) : Option Rat :=
  if !(token_usage.isSome) || !(pyTruthyStr model_name) then
    none
  else
    let u : TokenUsage := token_usage.getD {}
    let m : String := model_name.getD ""
    match tracerResolveKey m with
    | none => none
    | some key =>
      if pyTruthyInt u.total_tokens then
        match tracerRateLookup key with
        | none => none
        | some rate => some ((u.total_tokens.getD 0 : Rat) * (rate / 1000))
      else
        none

-- ---------------------------------------------------------------------------
-- Helper lemmas on length-sorted key lists
-- ---------------------------------------------------------------------------

/-- A first match found in a list sorted by length descending matches, is in
the list, and is at least as long as every other match. -/
theorem find?_lenDesc_max {l : List String} {p : String → Bool} {k : String}
    (hs : l.Pairwise (fun a b => b.length ≤ a.length))
    (h : l.find? p = some k) :
    k ∈ l ∧ p k = true ∧ ∀ k' ∈ l, p k' = true → k'.length ≤ k.length := by
  induction l with
  | nil => simp at h
  | cons x xs ih =>
    rw [List.pairwise_cons] at hs
    by_cases hx : p x
    · rw [List.find?_cons_of_pos _ hx] at h
      obtain rfl : x = k := by simpa using h
      refine ⟨List.mem_cons_self _ _, hx, ?_⟩
      intro k' hk' _
      rcases List.mem_cons.mp hk' with rfl | hk'
      · exact le_rfl
      · exact hs.1 k' hk'
    · rw [List.find?_cons_of_neg _ hx] at h
      obtain ⟨hmem, hpk, hmax⟩ := ih hs.2 h
      refine ⟨List.mem_cons_of_mem _ hmem, hpk, ?_⟩
      intro k' hk' hpk'
      rcases List.mem_cons.mp hk' with rfl | hk'
      · exact absurd hpk' (by simpa using hx)
      · exact hmax k' hk' hpk'

/-- The length-sorted key list of the schemas price table is pairwise
descending in length. -/
theorem sortLenDesc_pricingKeys_pairwise :
    (sortLenDesc pricingKeys).Pairwise (fun a b => b.length ≤ a.length) := by
  decide

/-- The length-sorted key list of the schemas price table, computed. -/
theorem sortLenDesc_pricingKeys_eq :
    sortLenDesc pricingKeys =
      ["gpt-3.5-turbo", "gpt-4.1-mini", "gpt-4.1-nano", "gpt-4o-mini",
       "gpt-4-turbo", "gpt-4.1", "gpt-4o", "gpt-4"] := by
  decide

/-- Sorting the schemas price-table keys does not change membership. -/
theorem mem_sortLenDesc_pricingKeys (k : String) :
    k ∈ sortLenDesc pricingKeys ↔ k ∈ pricingKeys := by
  rw [sortLenDesc_pricingKeys_eq]
  simp only [pricingKeys, pricing, List.map_cons, List.map_nil, List.mem_cons,
    List.not_mem_nil, or_false]
  tauto

-- ---------------------------------------------------------------------------
-- C1 and C2
-- ---------------------------------------------------------------------------

/-- C1, counterexample: the record (prompt_tokens = 0, completion_tokens = 10,
model_name = "gpt-4") has both token counts present and a recognized model, so
the claim demands `cost = (0/1000)*0.03 + (10/1000)*0.06`; the code treats the
present-but-zero `prompt_tokens` as falsy and returns `None` instead. -/
theorem C1_counterexample :
    calculate_cost (some 0) (some 10) "gpt-4" = none ∧
    some (specCostFormula 0 10 ⟨0.03, 0.06⟩) ≠ (none : Option Rat) ∧
    priceLookup (modelBase "gpt-4") = some ⟨0.03, 0.06⟩ := by
  refine ⟨rfl, by simp, rfl⟩

/-- C1 (amended): for every record with both token counts present and
nonzero and a model name that resolves to a price-table entry, the cost is
deterministic and equals `(prompt_tokens/1000)*price.input +
(completion_tokens/1000)*price.output`, each component computed and summed
exactly once with no rounding; for every record with either token count
absent or zero, or whose model name resolves to no entry, the cost is
`None`, not zero. -/
theorem C1_cost_formula (pt ct : Option Int) (m : String) :
    (∀ p c pr, pt = some p → ct = some c → p ≠ 0 → c ≠ 0 →
        priceLookup (modelBase m) = some pr →
        calculate_cost pt ct m = some (specCostFormula p c pr)) ∧
    ((pt = none ∨ ct = none ∨ pt = some 0 ∨ ct = some 0 ∨
        priceLookup (modelBase m) = none) →
      calculate_cost pt ct m = none) := by
  constructor
  · rintro p c pr rfl rfl hp hc hpr
    simp [calculate_cost, pyTruthyInt, hp, hc, hpr, specCostFormula]
  · rintro (rfl | rfl | rfl | rfl | h)
    · rfl
    · simp [calculate_cost, pyTruthyInt]
    · rfl
    · simp [calculate_cost, pyTruthyInt]
    · cases pt <;> cases ct <;> simp [calculate_cost, pyTruthyInt, h]

/-- Witness for `C1_cost_formula` at concrete inputs: 10 prompt and
5 completion tokens on "gpt-4o-mini" cost exactly the documented formula,
and a missing prompt count yields no cost. -/
theorem C1_cost_formula_witness :
    calculate_cost (some 10) (some 5) "gpt-4o-mini" =
      some (specCostFormula 10 5 ⟨0.00015, 0.0006⟩) ∧
    calculate_cost none (some 5) "gpt-4o-mini" = none := by
  refine ⟨(C1_cost_formula (some 10) (some 5) "gpt-4o-mini").1 10 5
    ⟨0.00015, 0.0006⟩ rfl rfl (by decide) (by decide) rfl,
    (C1_cost_formula none (some 5) "gpt-4o-mini").2 (Or.inl rfl)⟩

/-- C2, counterexample: the tracer's own cost calculator
(`HTTPTracer._calculate_cost`) resolves "gpt-4o-mini-2025-04-14" to the
FIRST price-table key in dict insertion order that occurs as a substring —
"gpt-4" — not to the longest key "gpt-4o-mini": a 1000-total-token trace is
priced at the gpt-4 rate 0.03, not the gpt-4o-mini rate 0.00015. -/
theorem C2_counterexample :
    tracerResolveKey "gpt-4o-mini-2025-04-14" = some "gpt-4" ∧
    tracer_calculate_cost (some { total_tokens := some 1000 })
      (some "gpt-4o-mini-2025-04-14") = some ((1000 : Rat) * (0.03 / 1000)) ∧
    tracerRateLookup "gpt-4o-mini" = some 0.00015 ∧
    (1000 : Rat) * (0.03 / 1000) ≠ 0.00015 := by
  refine ⟨by decide, rfl, rfl, by norm_num⟩

/-- C2 (amended): in `TokenUsage.calculate_cost`
(`agent_breadcrumbs/schemas.py`) a model name that starts with several
price-table keys resolves to the longest matching key — in particular
"gpt-4o-mini-2025-04-14" resolves to "gpt-4o-mini", not "gpt-4" or
"gpt-4o" — whereas `HTTPTracer._calculate_cost`
(`langchain_tracer/core/tracer.py`) resolves to the first key of its table,
in dict insertion order, that occurs as a substring of the lowercased model
name, so the same model name resolves to "gpt-4" there. -/
theorem C2_longest_key :
    (∀ m k, resolveKey m = some k →
        k ∈ pricingKeys ∧ pyStartsWith m k = true ∧
        ∀ k' ∈ pricingKeys, pyStartsWith m k' = true → k'.length ≤ k.length) ∧
    (∀ m, resolveKey m = none → ∀ k' ∈ pricingKeys, pyStartsWith m k' = false) ∧
    resolveKey "gpt-4o-mini-2025-04-14" = some "gpt-4o-mini" ∧
    calculate_cost (some 10) (some 5) "gpt-4o-mini-2025-04-14" =
      some (specCostFormula 10 5 ⟨0.00015, 0.0006⟩) ∧
    tracerResolveKey "gpt-4o-mini-2025-04-14" = some "gpt-4" := by
  refine ⟨?_, ?_, by decide, ?_, by decide⟩
  · intro m k h
    obtain ⟨hmem, hpk, hmax⟩ := find?_lenDesc_max sortLenDesc_pricingKeys_pairwise h
    refine ⟨(mem_sortLenDesc_pricingKeys k).mp hmem, hpk, ?_⟩
    intro k' hk' hpk'
    exact hmax k' ((mem_sortLenDesc_pricingKeys k').mpr hk') hpk'
  · intro m h k' hk'
    have := List.find?_eq_none.mp h k' ((mem_sortLenDesc_pricingKeys k').mpr hk')
    simpa using this
  · exact rfl

/-- Witness for `C2_longest_key`: the resolved key "gpt-4o-mini" for
"gpt-4o-mini-2025-04-14" is a table key, matches, and is at least as long as
every matching table key. -/
theorem C2_longest_key_witness :
    "gpt-4o-mini" ∈ pricingKeys ∧
    pyStartsWith "gpt-4o-mini-2025-04-14" "gpt-4o-mini" = true ∧
    ∀ k' ∈ pricingKeys, pyStartsWith "gpt-4o-mini-2025-04-14" k' = true →
      k'.length ≤ ("gpt-4o-mini" : String).length :=
  C2_longest_key.1 "gpt-4o-mini-2025-04-14" "gpt-4o-mini" (by decide)

-- ---------------------------------------------------------------------------
-- Trace data model (langchain_tracer/models/trace.py)
-- ---------------------------------------------------------------------------

/-- A tool/function call (dataclass `ToolCall`).  The open `arguments` dict
is carried as an association list of strings; `to_dict` / `from_dict` pass it
through unchanged, which the model reflects by identity. -/
structure ToolCall where
  name : String
  arguments : List (String × String)
  call_id : Option String := none
deriving DecidableEq

/-- A tool/function response (dataclass `ToolResponse`). -/
structure ToolResponse where
  call_id : Option String
  name : String
  content : String
  error : Option String := none
deriving DecidableEq

/-- Python `str(tool_call)`: `name(arg1=val1, arg2=val2)`. -/
def ToolCall.toStr (tc : ToolCall) : String :=
  tc.name ++ "(" ++
    String.intercalate ", " (tc.arguments.map (fun kv => kv.1 ++ "=" ++ kv.2)) ++ ")"

/-- The 100-character result preview used by the tool-result summaries:
`content[:100] + "..."` when the content is longer than 100 characters. -/
def resultPreview (content : String) : String :=
  if 100 < content.data.length then ⟨content.data.take 100⟩ ++ "..." else content

/-- Python `str(tool_response)`: `name: ERROR - err` when the error field is
truthy, else `name: content_preview`. -/
def ToolResponse.toStr (tr : ToolResponse) : String :=
  if pyTruthyStr tr.error then tr.name ++ ": ERROR - " ++ (tr.error.getD "")
  else tr.name ++ ": " ++ resultPreview tr.content

/-- The slice of the open `metadata` dict that the embedded code reads or
writes: the `call_type`, `tool_calls` and `tool_responses` keys.  A missing
key is `none` / the empty list (both falsy under `metadata.get(...)`); other
keys are never consulted by the modelled code. -/
structure Meta where
  call_type : Option String := none
  tool_calls : List ToolCall := []
  tool_responses : List ToolResponse := []
deriving DecidableEq

/-- The `input_data` embedded-JSON cell built by `TraceEvent.to_csv_row`:
keys `prompt`, `system` and `tool_responses`, each present only when its
source field is truthy. -/
structure InputData where
  prompt : Option String := none
  system : Option String := none
  tool_responses : Option (List String) := none
deriving DecidableEq

/-- The `output_data` embedded-JSON cell built by `TraceEvent.to_csv_row`:
the union of the keys its branches can set. -/
structure OutputData where
  response : Option String := none
  decision_type : Option String := none
  response_type : Option String := none
  based_on_tools : Option (List String) := none
  tool_results : Option (List String) := none
deriving DecidableEq

/-- The trace record (dataclass `TraceEvent`).  `timestamp` is carried as its
ISO string; `raw_request` / `raw_response` are opaque debug blobs, serialized
and deserialized unchanged. -/
structure TraceEvent where
  action_id : String
  session_id : String := ""
  timestamp : String
  action_type : String := "llm_call"
  user_input : Option String := none
  system_prompt : Option String := none
  ai_response : Option String := none
  tool_calls : List ToolCall := []
  tool_responses : List ToolResponse := []
  model_name : Option String := none
  provider : Option String := none
  token_usage : Option TokenUsage := none
  cost_usd : Option Rat := none
  duration_ms : Option Rat := none
  raw_request : Option String := none
  raw_response : Option String := none
  metadata : Meta := {}
deriving DecidableEq

/-- Python `a or b` on an optional string against a fallback: the left value
when truthy (present and nonempty), otherwise the fallback. -/
def pyOrStr (s : String) (fallback : Option String) : Option String :=
  if s = "" then fallback else some s

/-- The `timestamp.replace("Z", "+00:00")` normalization the loaders apply
before `datetime.fromisoformat`. -/
def pyReplaceZ (s : String) : String :=
  s.replace "Z" "+00:00"

/-- Helper of `TraceEvent.to_csv_row` and of the storage's
`_format_tool_calls_summary`: `tool_name(args)` joined by `" | "`, empty
when there are no tool calls. -/
def formatToolCallsSummary (tool_calls : List ToolCall) : String :=
  if tool_calls = [] then ""
  else String.intercalate " | " (tool_calls.map ToolCall.toStr)

/-- Helper of `TraceEvent.to_csv_row` and of the storage's
`_format_tool_results_summary`: `tool_name -> result_preview` joined by
`" | "`, empty when there are no tool responses. -/
def formatToolResultsSummary (tool_responses : List ToolResponse) : String :=
  if tool_responses = [] then ""
  else String.intercalate " | "
    (tool_responses.map (fun tr => tr.name ++ " -> " ++ resultPreview tr.content))

/-- The `_determine_conversation_flow_by_call_type` method of `TraceEvent`. -/
def TraceEvent.determineConversationFlowByCallType (t : TraceEvent)
    (call_type : String) : String :=
  if call_type = "INITIAL_TOOL_DECISION" then "1_TOOL_DECISION"
  else if call_type = "FINAL_RESPONSE" then "3_FINAL_RESPONSE"
  else if call_type = "DIRECT_RESPONSE" then "1_DIRECT_RESPONSE"
  else if t.tool_responses ≠ [] ∧ ¬ pyTruthyStr t.ai_response then "2_TOOL_PROCESSING"
  else if pyTruthyStr t.ai_response ∧ t.tool_responses ≠ [] then "3_FINAL_RESPONSE"
  else if t.tool_calls ≠ [] then "1_TOOL_DECISION"
  else if pyTruthyStr t.ai_response then "3_FINAL_RESPONSE"
  else "0_UNKNOWN"

/-- The `output_data` dict built by `TraceEvent.to_csv_row`, branch by
branch. -/
def TraceEvent.buildOutputData (t : TraceEvent) (call_type : String) : OutputData :=
  if call_type = "INITIAL_TOOL_DECISION" ∧ t.tool_calls ≠ [] then
    { response := some (if t.tool_calls.length = 1 then
        "🔧 Decided to call tool: " ++
          String.intercalate ", " (t.tool_calls.map ToolCall.toStr)
      else
        "🔧 Decided to call tools: " ++
          String.intercalate ", " (t.tool_calls.map ToolCall.toStr)),
      decision_type := some "tool_selection" }
  else if call_type = "FINAL_RESPONSE" ∧ pyTruthyStr t.ai_response then
    { response := t.ai_response,
      response_type := some "final_answer",
      based_on_tools := if t.tool_responses ≠ [] then
        some (t.tool_responses.map ToolResponse.name) else none }
  else if call_type = "DIRECT_RESPONSE" ∧ pyTruthyStr t.ai_response then
    { response := t.ai_response, response_type := some "direct_answer" }
  else if pyTruthyStr t.ai_response then
    { response := t.ai_response, response_type := some "general" }
  else if t.tool_calls ≠ [] then
    { response := some ("🔧 Tool calls: " ++
        String.intercalate ", " (t.tool_calls.map ToolCall.toStr)),
      response_type := some "tool_calls" }
  else if t.tool_responses ≠ [] then
    { tool_results := some (t.tool_responses.map ToolResponse.toStr),
      response_type := some "tool_results" }
  else
    { response := some (if call_type ≠ "UNKNOWN" then "Processing " ++ call_type
        else "Processing..."),
      response_type := some "processing" }

/-- One data row of the CSV backing file, cell by cell in header order
(`CSVStorage.headers`).  String cells hold the cell text; numeric cells are
`Option` values (`none` is the empty cell); embedded-JSON cells hold the
structured value they encode. -/
structure CsvRow where
  action_id : String
  session_id : String
  timestamp : String
  action_type : String
  input_data : InputData
  output_data : OutputData
  model_name : String
  prompt_tokens : Option Int
  completion_tokens : Option Int
  total_tokens : Option Int
  cost_usd : Option Rat
  duration_ms : Option Rat
  metadata : Meta
  user_input : String
  ai_response : String
  tool_calls_summary : String
  tool_results_summary : String
  conversation_flow : String
deriving DecidableEq

/-- Shallow embedding of `TraceEvent.to_csv_row`
(`langchain_tracer/models/trace.py`). -/
def TraceEvent.to_csv_row (t : TraceEvent) : CsvRow :=
  let call_type := t.metadata.call_type.getD "UNKNOWN"
  let input_data : InputData :=
    { prompt := if pyTruthyStr t.user_input then t.user_input else none,
      system := if pyTruthyStr t.system_prompt then t.system_prompt else none,
      tool_responses := if t.tool_responses ≠ [] then
        some (t.tool_responses.map ToolResponse.toStr) else none }
  let enhanced_metadata : Meta :=
    { call_type := some call_type,
      tool_calls := if t.tool_calls ≠ [] then t.tool_calls else t.metadata.tool_calls,
      tool_responses := if t.tool_responses ≠ [] then t.tool_responses
        else t.metadata.tool_responses }
  { action_id := t.action_id,
    session_id := t.session_id,
    timestamp := t.timestamp,
    action_type := t.action_type,
    input_data := input_data,
    output_data := t.buildOutputData call_type,
    model_name := t.model_name.getD "",
    prompt_tokens := match t.token_usage with
      | some u => u.prompt_tokens
      | none => none,
    completion_tokens := match t.token_usage with
      | some u => u.completion_tokens
      | none => none,
    total_tokens := match t.token_usage with
      | some u => u.total_tokens
      | none => none,
    cost_usd := t.cost_usd,
    duration_ms := t.duration_ms,
    metadata := enhanced_metadata,
    user_input := t.user_input.getD "",
    ai_response := t.ai_response.getD "",
    tool_calls_summary := formatToolCallsSummary t.tool_calls,
    tool_results_summary := formatToolResultsSummary t.tool_responses,
    conversation_flow := t.determineConversationFlowByCallType call_type }

/-- The `_determine_conversation_flow` fallback of `CSVStorage`, used only
when the base row carries no flow tag. -/
def csvStorageDetermineConversationFlow (t : TraceEvent) : String :=
  let ct := t.metadata.call_type
  if ct = some "INITIAL_TOOL_DECISION" then "1_TOOL_DECISION"
  else if ct = some "FINAL_RESPONSE" then "3_FINAL_RESPONSE"
  else if ct = some "DIRECT_RESPONSE" then "1_DIRECT_RESPONSE"
  else if pyTruthyStr t.user_input ∧ t.tool_calls ≠ [] ∧ ¬ pyTruthyStr t.ai_response
    then "1_TOOL_DECISION"
  else if t.tool_responses ≠ [] ∧ pyTruthyStr t.ai_response then "3_FINAL_RESPONSE"
  else if t.tool_responses ≠ [] ∧ ¬ pyTruthyStr t.ai_response then "2_TOOL_PROCESSING"
  else if pyTruthyStr t.user_input ∧ pyTruthyStr t.ai_response ∧ t.tool_calls = []
    then "1_DIRECT_RESPONSE"
  else if pyTruthyStr t.ai_response then "3_FINAL_RESPONSE"
  else "0_UNKNOWN"

/-- Shallow embedding of `CSVStorage._trace_to_enhanced_csv_row`: the base
`to_csv_row` row with the convenience fields overwritten (with the same
values the base row already carries) and the conversation flow recomputed
only when the base row left it empty. -/
def traceToEnhancedCsvRow (t : TraceEvent) : CsvRow :=
  let base := t.to_csv_row
  { base with
    user_input := t.user_input.getD "",
    ai_response := t.ai_response.getD "",
    tool_calls_summary := formatToolCallsSummary t.tool_calls,
    tool_results_summary := formatToolResultsSummary t.tool_responses,
    conversation_flow := if base.conversation_flow = "" then
      csvStorageDetermineConversationFlow t else base.conversation_flow }

/-- Shallow embedding of `CSVStorage._csv_row_to_trace`: the embedded-JSON
cells parse to their structured values (the malformed-JSON fallbacks to empty
dicts cannot trigger on cells this model produces), empty numeric cells
become `None`, a `TokenUsage` is rebuilt only when at least one of the three
token cells is truthy, and the tool lists are rebuilt from the metadata
cell's `tool_calls` / `tool_responses` keys when truthy. -/
def csvRowToTrace (row : CsvRow) : TraceEvent :=
  { action_id := row.action_id,
    session_id := row.session_id,
    timestamp := pyReplaceZ row.timestamp,
    action_type := row.action_type,
    user_input := pyOrStr row.user_input row.input_data.prompt,
    system_prompt := row.input_data.system,
    ai_response := pyOrStr row.ai_response row.output_data.response,
    tool_calls := if row.metadata.tool_calls ≠ [] then row.metadata.tool_calls else [],
    tool_responses := if row.metadata.tool_responses ≠ [] then
      row.metadata.tool_responses else [],
    model_name := some row.model_name,
    provider := none,
    token_usage := if row.prompt_tokens.isSome || row.completion_tokens.isSome
        || row.total_tokens.isSome then
      some { prompt_tokens := row.prompt_tokens,
             completion_tokens := row.completion_tokens,
             total_tokens := row.total_tokens }
    else none,
    cost_usd := row.cost_usd,
    duration_ms := row.duration_ms,
    raw_request := none,
    raw_response := none,
    metadata := row.metadata }

-- ---------------------------------------------------------------------------
-- JSON dict serialization (TraceEvent.to_dict / from_dict)
-- ---------------------------------------------------------------------------

/-- The JSON object written for one trace (`TraceEvent.to_dict` output
shape, one key per dataclass field; `ToolCall` / `ToolResponse` /
`TokenUsage` sub-dicts are carried as the values themselves since their
`to_dict` / `from_dict` pairs are inverse). -/
structure TraceDict where
  action_id : String
  session_id : String
  timestamp : String
  action_type : String
  user_input : Option String
  system_prompt : Option String
  ai_response : Option String
  tool_calls : List ToolCall
  tool_responses : List ToolResponse
  model_name : Option String
  provider : Option String
  token_usage : Option TokenUsage
  cost_usd : Option Rat
  duration_ms : Option Rat
  raw_request : Option String
  raw_response : Option String
  metadata : Meta
deriving DecidableEq

/-- Shallow embedding of `TraceEvent.to_dict`
(`langchain_tracer/models/trace.py`). -/
def TraceEvent.to_dict (t : TraceEvent) : TraceDict :=
  { action_id := t.action_id,
    session_id := t.session_id,
    timestamp := t.timestamp,
    action_type := t.action_type,
    user_input := t.user_input,
    system_prompt := t.system_prompt,
    ai_response := t.ai_response,
    tool_calls := t.tool_calls,
    tool_responses := t.tool_responses,
    model_name := t.model_name,
    provider := t.provider,
    token_usage := t.token_usage,
    cost_usd := t.cost_usd,
    duration_ms := t.duration_ms,
    raw_request := t.raw_request,
    raw_response := t.raw_response,
    metadata := t.metadata }

/-- Shallow embedding of `TraceEvent.from_dict`: the `tool_calls` /
`tool_responses` / `token_usage` keys are rebuilt only when truthy (an empty
list is falsy and yields the default empty list; a present `token_usage`
sub-dict always has its three keys and is truthy even when all three are
null), and the timestamp goes through the `"Z" → "+00:00"` replacement. -/
def traceFromDict (d : TraceDict) : TraceEvent :=
  { action_id := d.action_id,
    session_id := d.session_id,
    timestamp := pyReplaceZ d.timestamp,
    action_type := d.action_type,
    user_input := d.user_input,
    system_prompt := d.system_prompt,
    ai_response := d.ai_response,
    tool_calls := if d.tool_calls ≠ [] then d.tool_calls else [],
    tool_responses := if d.tool_responses ≠ [] then d.tool_responses else [],
    model_name := d.model_name,
    provider := d.provider,
    token_usage := d.token_usage,
    cost_usd := d.cost_usd,
    duration_ms := d.duration_ms,
    raw_request := d.raw_request,
    raw_response := d.raw_response,
    metadata := d.metadata }

-- ---------------------------------------------------------------------------
-- Buffered stores (langchain_tracer/storage/csv_storage.py, json_storage.py)
-- ---------------------------------------------------------------------------

/-- Outcome of one attempt to serialize-and-append the buffer:
`none` means every row is written; `some k` means an exception is raised
after `k` rows were already appended (`k = 0` covers a serialization
failure before any write). -/
abbrev WriteOutcome := Option Nat

/-- State of a `CSVStorage`: the configured threshold, the in-memory buffer,
and the backing file (`none` when the file does not exist; `some rows` is an
existing file with its header and `rows` data rows). -/
structure CSVState where
  buffer_size : Nat := 100
  buffer : List TraceEvent := []
  file : Option (List CsvRow) := none
deriving DecidableEq

/-- Shallow embedding of `CSVStorage._initialize_file`: writes the
header-only file only when the file does not exist. -/
def csvInitializeFile (st : CSVState) : CSVState :=
  match st.file with
  | none => { st with file := some [] }
  | some _ => st

/-- A freshly constructed `CSVStorage` (the constructor calls
`_initialize_file`). -/
def newCSVStorage (buffer_size : Nat := 100) : CSVState :=
  csvInitializeFile { buffer_size := buffer_size }

/-- The body of the `try` block of `CSVStorage._flush_buffer`: serializes
every buffered trace and appends the rows to the file (`open(..., "a")`
creates a missing file), clearing the buffer; raises on a failing outcome. -/
def csvFlushTry (w : WriteOutcome) (st : CSVState) : Except String CSVState :=
  let rows := st.buffer.map traceToEnhancedCsvRow
  match w with
  | none => .ok { st with buffer := [], file := some (st.file.getD [] ++ rows) }
  | some _ => .error "write failed"

/-- Shallow embedding of `CSVStorage._flush_buffer`: no-op on an empty
buffer; otherwise the `try` block runs and any exception is caught — the
error is printed (the returned diagnostic list), the buffer is left as it
was, and the file keeps whatever prefix of the rows was written before the
exception. -/
def csvFlushBuffer (w : WriteOutcome) (st : CSVState) : CSVState × List String :=
  if st.buffer = [] then (st, [])
  else
    match csvFlushTry w st with
    | .ok st' => (st', ["📁 Flushed traces"])
    | .error e =>
      let rows := st.buffer.map traceToEnhancedCsvRow
      ({ st with file := some (st.file.getD [] ++ rows.take (w.getD 0)) },
       ["Error flushing enhanced CSV buffer: " ++ e])

/-- Shallow embedding of `CSVStorage.store_trace`: append to the buffer and
flush synchronously when the buffer has reached `buffer_size`. -/
def csvStoreTrace (w : WriteOutcome) (st : CSVState) (t : TraceEvent) :
    CSVState × List String :=
  let st1 := { st with buffer := st.buffer ++ [t] }
  if st.buffer_size ≤ st1.buffer.length then csvFlushBuffer w st1
  else (st1, [])

/-- Shallow embedding of `CSVStorage.store_traces` (batched store, one
threshold check after the whole batch is appended). -/
def csvStoreTraces (w : WriteOutcome) (st : CSVState) (ts : List TraceEvent) :
    CSVState × List String :=
  let st1 := { st with buffer := st.buffer ++ ts }
  if st.buffer_size ≤ st1.buffer.length then csvFlushBuffer w st1
  else (st1, [])

/-- Shallow embedding of `CSVStorage.flush` (also what the background flush
thread invokes every `flush_interval` seconds): flush the buffer when it is
nonempty. -/
def csvFlush (w : WriteOutcome) (st : CSVState) : CSVState × List String :=
  if st.buffer ≠ [] then csvFlushBuffer w st else (st, [])

/-- Shallow embedding of `CSVStorage.load_traces`: every data row of the
backing file deserialized in file order, optionally filtered by session. -/
def csvLoadTraces (st : CSVState) (session_id : Option String := none) :
    List TraceEvent :=
  match st.file with
  | none => []
  | some rows =>
    (rows.map csvRowToTrace).filter (fun t =>
      match session_id with
      | none => true
      | some sid => t.session_id == sid)

/-- Shallow embedding of `CSVStorage.clear`: empties the buffer, then calls
`_initialize_file` (which only recreates a missing file). -/
def csvClear (st : CSVState) : CSVState :=
  csvInitializeFile { st with buffer := [] }

/-- State of a `JSONStorage` in its default `jsonl` format: threshold,
buffer, and the backing file as the list of parsed JSON objects, one per
line (`none` when the file does not exist).  The `json` array format differs
only in rewriting the whole array instead of appending lines; its
`_flush_buffer` shares the same `try`/`except` and buffer handling. -/
structure JSONLState where
  buffer_size : Nat := 100
  buffer : List TraceEvent := []
  file : Option (List TraceDict) := none
deriving DecidableEq

/-- Shallow embedding of `JSONStorage._initialize_file` (jsonl format:
`touch` an empty file only when it does not exist). -/
def jsonlInitializeFile (st : JSONLState) : JSONLState :=
  match st.file with
  | none => { st with file := some [] }
  | some _ => st

/-- A freshly constructed `JSONStorage` (jsonl format). -/
def newJSONLStorage (buffer_size : Nat := 100) : JSONLState :=
  jsonlInitializeFile { buffer_size := buffer_size }

/-- The body of the `try` block of `JSONStorage._flush_buffer` (jsonl):
`_flush_jsonl` appends one JSON line per buffered trace, then the buffer is
cleared; raises on a failing outcome. -/
def jsonlFlushTry (w : WriteOutcome) (st : JSONLState) : Except String JSONLState :=
  let ds := st.buffer.map TraceEvent.to_dict
  match w with
  | none => .ok { st with buffer := [], file := some (st.file.getD [] ++ ds) }
  | some _ => .error "write failed"

/-- Shallow embedding of `JSONStorage._flush_buffer`: no-op on an empty
buffer; otherwise any exception from the write is caught, printed, and the
buffer is left as it was (the file keeps the lines written before the
exception). -/
def jsonlFlushBuffer (w : WriteOutcome) (st : JSONLState) : JSONLState × List String :=
  if st.buffer = [] then (st, [])
  else
    match jsonlFlushTry w st with
    | .ok st' => (st', [])
    | .error e =>
      let ds := st.buffer.map TraceEvent.to_dict
      ({ st with file := some (st.file.getD [] ++ ds.take (w.getD 0)) },
       ["Error flushing JSON buffer: " ++ e])

/-- Shallow embedding of `JSONStorage.store_trace`. -/
def jsonlStoreTrace (w : WriteOutcome) (st : JSONLState) (t : TraceEvent) :
    JSONLState × List String :=
  let st1 := { st with buffer := st.buffer ++ [t] }
  if st.buffer_size ≤ st1.buffer.length then jsonlFlushBuffer w st1
  else (st1, [])

/-- Shallow embedding of `JSONStorage.store_traces`. -/
def jsonlStoreTraces (w : WriteOutcome) (st : JSONLState) (ts : List TraceEvent) :
    JSONLState × List String :=
  let st1 := { st with buffer := st.buffer ++ ts }
  if st.buffer_size ≤ st1.buffer.length then jsonlFlushBuffer w st1
  else (st1, [])

/-- Shallow embedding of `JSONStorage.flush` (also invoked by the background
flush thread). -/
def jsonlFlush (w : WriteOutcome) (st : JSONLState) : JSONLState × List String :=
  if st.buffer ≠ [] then jsonlFlushBuffer w st else (st, [])

/-- Shallow embedding of `JSONStorage.load_traces` (jsonl): every stored
line parses back to its object (`_load_jsonl` skips only unparseable lines,
which this model's writer never produces), deserialized in file order and
optionally filtered by session. -/
def jsonlLoadTraces (st : JSONLState) (session_id : Option String := none) :
    List TraceEvent :=
  match st.file with
  | none => []
  | some ds =>
    let traces := ds.map traceFromDict
    match session_id with
    | none => traces
    | some sid => traces.filter (fun t => t.session_id == sid)

/-- Shallow embedding of `JSONStorage.clear`: empties the buffer, then calls
`_initialize_file` (which only recreates a missing file). -/
def jsonlClear (st : JSONLState) : JSONLState :=
  jsonlInitializeFile { st with buffer := [] }

/-- The schema fields claim C4 compares: id (`action_id`), `session_id`,
kind (`action_type`), the three token counts, and cost (`cost_usd`).  Token
counts are read through the optional `token_usage`, so a record without a
`TokenUsage` and one whose `TokenUsage` has the count `None` agree. -/
structure ClaimFields where
  id : String
  session_id : String
  kind : String
  prompt_tokens : Option Int
  completion_tokens : Option Int
  total_tokens : Option Int
  cost : Option Rat
deriving DecidableEq

/-- Projection of a trace onto the fields claim C4 compares. -/
def claimFields (t : TraceEvent) : ClaimFields :=
  { id := t.action_id,
    session_id := t.session_id,
    kind := t.action_type,
    prompt_tokens := t.token_usage.bind TokenUsage.prompt_tokens,
    completion_tokens := t.token_usage.bind TokenUsage.completion_tokens,
    total_tokens := t.token_usage.bind TokenUsage.total_tokens,
    cost := t.cost_usd }

/-- A concrete trace used by closed theorems and witnesses. -/
def sampleTrace : TraceEvent :=
  { action_id := "a-1",
    session_id := "s-1",
    timestamp := "2025-01-01T00:00:00",
    action_type := "llm_call" }

-- ---------------------------------------------------------------------------
-- CSVAdapter (agent_breadcrumbs/adapters/csv_adapter.py) and schemas.AgentAction
-- ---------------------------------------------------------------------------

/-- The `AgentAction` record of `agent_breadcrumbs/schemas.py`.
`input_data`, `output_data` and `metadata` are JSON strings, carried
verbatim; `timestamp` is its ISO string. -/
structure AgentAction where
  action_id : String
  session_id : String
  timestamp : String
  action_type : String
  input_data : String
  output_data : String
  token_usage : Option TokenUsage := none
  token_count : Option Int := none
  model_name : Option String := none
  duration_ms : Option Rat := none
  cost_usd : Option Rat := none
  metadata : String := "\x7b\x7d"
deriving DecidableEq

/-- One data row of the adapter's CSV file, cell by cell in header order.
Numeric cells are `Option` values with `none` for the empty cell. -/
structure AdapterRow where
  action_id : String
  session_id : String
  timestamp : String
  action_type : String
  input_data : String
  output_data : String
  model_name : String
  prompt_tokens : Option Int
  completion_tokens : Option Int
  total_tokens : Option Int
  cost_usd : Option Rat
  duration_ms : Option Rat
  metadata : String
deriving DecidableEq

/-- The `x or ""` idiom on an optional int cell: `None` and `0` both write
the empty cell. -/
def pyIntOrEmptyCell (v : Option Int) : Option Int :=
  if pyTruthyInt v then v else none

/-- The `x or ""` idiom on an optional float cell: `None` and `0.0` both
write the empty cell. -/
def pyRatOrEmptyCell (v : Option Rat) : Option Rat :=
  match v with
  | some q => if q ≠ 0 then some q else none
  | none => none

/-- Shallow embedding of the row written by `CSVAdapter.log_action`:
token cells default to empty (`total_tokens` to `action.token_count or ""`)
and are overwritten from `token_usage` via `or ""` when a `token_usage` is
present; `cost_usd` and `duration_ms` are written via `or ""`. -/
def adapterLogActionRow (a : AgentAction) : AdapterRow :=
  let base_total : Option Int := pyIntOrEmptyCell a.token_count
  { action_id := a.action_id,
    session_id := a.session_id,
    timestamp := a.timestamp,
    action_type := a.action_type,
    input_data := a.input_data,
    output_data := a.output_data,
    model_name := a.model_name.getD "",
    prompt_tokens := match a.token_usage with
      | some u => pyIntOrEmptyCell u.prompt_tokens
      | none => none,
    completion_tokens := match a.token_usage with
      | some u => pyIntOrEmptyCell u.completion_tokens
      | none => none,
    total_tokens := match a.token_usage with
      | some u => pyIntOrEmptyCell u.total_tokens
      | none => base_total,
    cost_usd := pyRatOrEmptyCell a.cost_usd,
    duration_ms := pyRatOrEmptyCell a.duration_ms,
    metadata := a.metadata }

/-- Shallow embedding of `CSVAdapter._row_to_action`: a `TokenUsage` is
rebuilt only when the `prompt_tokens` or `completion_tokens` cell is truthy;
empty numeric cells become `None`; an empty `model_name` cell becomes
`None`. -/
def rowToAction (row : AdapterRow) : AgentAction :=
  { action_id := row.action_id,
    session_id := row.session_id,
    timestamp := row.timestamp,
    action_type := row.action_type,
    input_data := row.input_data,
    output_data := row.output_data,
    model_name := if row.model_name ≠ "" then some row.model_name else none,
    token_usage := if row.prompt_tokens.isSome || row.completion_tokens.isSome then
      some { prompt_tokens := row.prompt_tokens,
             completion_tokens := row.completion_tokens,
             total_tokens := row.total_tokens }
    else none,
    token_count := row.total_tokens,
    cost_usd := row.cost_usd,
    duration_ms := row.duration_ms,
    metadata := row.metadata }

-- ---------------------------------------------------------------------------
-- AgentLogger sessions (agent_breadcrumbs/logger.py)
-- ---------------------------------------------------------------------------

/-- Hex digit characters, as indexed by `hexChar`. -/
def hexChar (k : Nat) : Char :=
  "0123456789abcdef".data.getD k '0'

/-- Big-endian fixed-width hex rendering of a natural number. -/
def hexStr : Nat → Nat → List Char
  | 0, _ => []
  | len + 1, n => hexStr len (n / 16) ++ [hexChar (n % 16)]

/-- Model of `str(uuid.uuid4())`: the canonical 8-4-4-4-12 grouping of the
32 hex digits of a 128-bit value, drawn here from a seed. -/
def uuid4Str (r : Nat) : String :=
  ⟨hexStr 8 (r / 16 ^ 24 % 16 ^ 8) ++ '-' :: hexStr 4 (r / 16 ^ 20 % 16 ^ 4) ++
    '-' :: hexStr 4 (r / 16 ^ 16 % 16 ^ 4) ++ '-' :: hexStr 4 (r / 16 ^ 12 % 16 ^ 4) ++
    '-' :: hexStr 12 (r % 16 ^ 12)⟩

/-- The logger facade (`AgentLogger`): its current session id, plus the seed
supplying the next `uuid.uuid4()` draw. -/
structure AgentLogger where
  session_id : String
  seed : Nat
deriving DecidableEq

/-- Shallow embedding of `AgentLogger.__init__`:
`self.session_id = session_id or str(uuid.uuid4())` — an absent or empty
caller-supplied id is replaced by a fresh identifier. -/
def mkAgentLogger (session_id : Option String) (seed : Nat) : AgentLogger :=
  { session_id := match session_id with
      | some s => if s ≠ "" then s else uuid4Str seed
      | none => uuid4Str seed,
    seed := seed + 1 }

/-- Arguments of one `_log_action` call. -/
structure LogRequest where
  action_type : String
  input_data : String
  output_data : String
  model_name : Option String := none
  token_count : Option Int := none
  token_usage : Option TokenUsage := none
  duration_ms : Option Rat := none
  metadata : String := "\x7b\x7d"
deriving DecidableEq

/-- Shallow embedding of `AgentAction.calculate_cost`: sets `cost_usd` from
the token usage and model name when both are truthy, else leaves the record
unchanged. -/
def AgentAction.calculateCost (a : AgentAction) : AgentAction :=
  let u : TokenUsage := a.token_usage.getD {}
  let m : String := a.model_name.getD ""
  if a.token_usage.isSome ∧ pyTruthyStr a.model_name then
    { a with cost_usd := calculate_cost u.prompt_tokens u.completion_tokens m }
  else a

/-- Shallow embedding of `AgentLogger._log_action`: builds an `AgentAction`
carrying the logger's current `session_id` and a fresh `action_id`, computes
its cost, and hands it to the adapter.  A `duration_ms` of `None` is
replaced by the near-zero elapsed time of the same call (modelled as 0; the
spec's design notes flag this as a known defect).  The `timestamp` default
(`datetime.utcnow`) is modelled as the empty ISO string. -/
def logAction (L : AgentLogger) (r : LogRequest) : AgentLogger × AgentAction :=
  let a0 : AgentAction :=
    { action_id := uuid4Str L.seed,
      session_id := L.session_id,
      timestamp := "",
      action_type := r.action_type,
      input_data := r.input_data,
      output_data := r.output_data,
      token_usage := r.token_usage,
      token_count := r.token_count,
      model_name := r.model_name,
      duration_ms := some (r.duration_ms.getD 0),
      metadata := r.metadata }
  ({ L with seed := L.seed + 1 }, a0.calculateCost)

/-- Shallow embedding of `AgentLogger.start_new_session`: replaces the
session id with a freshly generated identifier and returns it. -/
def startNewSession (L : AgentLogger) : AgentLogger × String :=
  ({ session_id := uuid4Str L.seed, seed := L.seed + 1 }, uuid4Str L.seed)

/-- A sequence of `_log_action` calls on one logger instance, collecting the
produced records. -/
def runLog : AgentLogger → List LogRequest → AgentLogger × List AgentAction
  | L, [] => (L, [])
  | L, r :: rs =>
    let p := logAction L r
    let q := runLog p.1 rs
    (q.1, p.2 :: q.2)

-- ---------------------------------------------------------------------------
-- HTTPTracer.export_traces format dispatch (langchain_tracer/core/tracer.py)
-- ---------------------------------------------------------------------------

/-- Whether a fallible result is a success. -/
def isOkE {ε α : Type} : Except ε α → Bool
  | .ok _ => true
  | .error _ => false

/-- Shallow embedding of the format dispatch of `HTTPTracer.export_traces`:
`format.lower() == "csv"` exports CSV, `format.lower() in ["json", "jsonl"]`
exports JSON, anything else raises
`ValueError(f"Unsupported export format: ...")`.  The storage writes behind
the two accepting branches are outside this claim's scope. -/
def export_traces_check (format : String) : Except String Unit :=
  if pyLower format == "csv" then .ok ()
  else if pyLower format == "json" || pyLower format == "jsonl" then .ok ()
  else .error ("Unsupported export format: " ++ format)

-- ---------------------------------------------------------------------------
-- C3: flush failures never escape store(), and the buffer is preserved
-- ---------------------------------------------------------------------------

/-- C3: when serializing or writing fails during a flush, the `try` block of
`_flush_buffer` raises but the surrounding `except` keeps `store_trace` and
`flush` total (both remain plain functions here): the in-memory buffer is
left exactly as it was — for a store-triggered flush, the buffer still holds
the old records plus the newly appended one — and the failure shows up only
as a printed diagnostic, for both the CSV and the JSON storage (the
timer-triggered flush invokes the same `flush`). -/
theorem C3_flush_failure_preserves_buffer (k : Nat) (st : CSVState)
    (t : TraceEvent) (stj : JSONLState) (tj : TraceEvent) :
    csvFlushTry (some k) st = .error "write failed" ∧
    (csvFlush (some k) st).1.buffer = st.buffer ∧
    (st.buffer ≠ [] → (csvFlush (some k) st).2 ≠ []) ∧
    (st.buffer_size ≤ st.buffer.length + 1 →
      (csvStoreTrace (some k) st t).1.buffer = st.buffer ++ [t] ∧
      (csvStoreTrace (some k) st t).2 ≠ []) ∧
    jsonlFlushTry (some k) stj = .error "write failed" ∧
    (jsonlFlush (some k) stj).1.buffer = stj.buffer ∧
    (stj.buffer ≠ [] → (jsonlFlush (some k) stj).2 ≠ []) ∧
    (stj.buffer_size ≤ stj.buffer.length + 1 →
      (jsonlStoreTrace (some k) stj tj).1.buffer = stj.buffer ++ [tj] ∧
      (jsonlStoreTrace (some k) stj tj).2 ≠ []) := by
  refine ⟨rfl, ?_, ?_, ?_, rfl, ?_, ?_, ?_⟩
  · by_cases hb : st.buffer = [] <;>
      simp [csvFlush, csvFlushBuffer, csvFlushTry, hb]
  · intro hb
    simp [csvFlush, csvFlushBuffer, csvFlushTry, hb]
  · intro h
    constructor <;>
      simp [csvStoreTrace, csvFlushBuffer, csvFlushTry, h]
  · by_cases hb : stj.buffer = [] <;>
      simp [jsonlFlush, jsonlFlushBuffer, jsonlFlushTry, hb]
  · intro hb
    simp [jsonlFlush, jsonlFlushBuffer, jsonlFlushTry, hb]
  · intro h
    constructor <;>
      simp [jsonlStoreTrace, jsonlFlushBuffer, jsonlFlushTry, h]

/-- A CSV store holding one buffered trace. -/
def csvStOne : CSVState :=
  { buffer_size := 100, buffer := [sampleTrace], file := some [] }

/-- A fresh CSV store with threshold 1. -/
def csvStT1 : CSVState :=
  { buffer_size := 1, buffer := [], file := some [] }

/-- A fresh JSONL store with threshold 1. -/
def jsonlStT1 : JSONLState :=
  { buffer_size := 1, buffer := [], file := some [] }

/-- Witness for `C3_flush_failure_preserves_buffer`: one buffered trace, a
failing write, threshold 1. -/
theorem C3_flush_failure_witness :
    (csvFlush (some 0) csvStOne).1.buffer = [sampleTrace] ∧
    (csvStoreTrace (some 0) csvStT1 sampleTrace).1.buffer = [sampleTrace] ∧
    (jsonlStoreTrace (some 0) jsonlStT1 sampleTrace).1.buffer = [sampleTrace] := by
  have h := C3_flush_failure_preserves_buffer 0 csvStOne sampleTrace
    jsonlStT1 sampleTrace
  have hcsv := C3_flush_failure_preserves_buffer 0 csvStT1 sampleTrace
    jsonlStT1 sampleTrace
  refine ⟨h.2.1, ?_, ?_⟩
  · have hx := (hcsv.2.2.2.1 (by simp [csvStT1])).1
    simpa [csvStT1] using hx
  · have hx := (h.2.2.2.2.2.2.2 (by simp [jsonlStT1])).1
    simpa [jsonlStT1] using hx

-- ---------------------------------------------------------------------------
-- C6: buffer threshold semantics of store()
-- ---------------------------------------------------------------------------

/-- C6: `store_trace` appends the record to the buffer and flushes
synchronously exactly when the buffer length reaches the configured
threshold — below it, the buffer grows by one and the file is untouched; at
it, the buffer is written out and cleared.  With threshold 3, four stores
cause exactly one automatic flush, on the third call, leaving one record
buffered; both backends behave alike. -/
theorem C6_buffer_threshold (st : CSVState) (t : TraceEvent)
    (stj : JSONLState) (tj : TraceEvent) (t1 t2 t3 t4 : TraceEvent) :
    (st.buffer.length + 1 < st.buffer_size →
      (csvStoreTrace none st t).1.buffer = st.buffer ++ [t] ∧
      (csvStoreTrace none st t).1.file = st.file ∧
      (csvStoreTrace none st t).2 = []) ∧
    (st.buffer_size ≤ st.buffer.length + 1 →
      (csvStoreTrace none st t).1.buffer = [] ∧
      (csvStoreTrace none st t).1.file =
        some (st.file.getD [] ++ (st.buffer ++ [t]).map traceToEnhancedCsvRow)) ∧
    (stj.buffer.length + 1 < stj.buffer_size →
      (jsonlStoreTrace none stj tj).1.buffer = stj.buffer ++ [tj] ∧
      (jsonlStoreTrace none stj tj).1.file = stj.file ∧
      (jsonlStoreTrace none stj tj).2 = []) ∧
    (stj.buffer_size ≤ stj.buffer.length + 1 →
      (jsonlStoreTrace none stj tj).1.buffer = [] ∧
      (jsonlStoreTrace none stj tj).1.file =
        some (stj.file.getD [] ++ (stj.buffer ++ [tj]).map TraceEvent.to_dict)) ∧
    (let r1 := csvStoreTrace none (newCSVStorage 3) t1
     let r2 := csvStoreTrace none r1.1 t2
     let r3 := csvStoreTrace none r2.1 t3
     let r4 := csvStoreTrace none r3.1 t4
     r1.1.buffer = [t1] ∧ r1.1.file = some [] ∧ r1.2 = [] ∧
     r2.1.buffer = [t1, t2] ∧ r2.1.file = some [] ∧ r2.2 = [] ∧
     r3.1.buffer = [] ∧
     r3.1.file = some ([t1, t2, t3].map traceToEnhancedCsvRow) ∧
     r4.1.buffer = [t4] ∧
     r4.1.file = some ([t1, t2, t3].map traceToEnhancedCsvRow) ∧ r4.2 = []) ∧
    (let q1 := jsonlStoreTrace none (newJSONLStorage 3) t1
     let q2 := jsonlStoreTrace none q1.1 t2
     let q3 := jsonlStoreTrace none q2.1 t3
     let q4 := jsonlStoreTrace none q3.1 t4
     q1.1.buffer = [t1] ∧ q2.1.buffer = [t1, t2] ∧
     q3.1.buffer = [] ∧ q3.1.file = some ([t1, t2, t3].map TraceEvent.to_dict) ∧
     q4.1.buffer = [t4] ∧
     q4.1.file = some ([t1, t2, t3].map TraceEvent.to_dict)) := by
  refine ⟨?_, ?_, ?_, ?_, ?_, ?_⟩
  · intro h
    have h' : ¬ st.buffer_size ≤ st.buffer.length + 1 := by omega
    simp [csvStoreTrace, h']
  · intro h
    simp [csvStoreTrace, csvFlushBuffer, csvFlushTry, h]
  · intro h
    have h' : ¬ stj.buffer_size ≤ stj.buffer.length + 1 := by omega
    simp [jsonlStoreTrace, h']
  · intro h
    simp [jsonlStoreTrace, jsonlFlushBuffer, jsonlFlushTry, h]
  · simp [csvStoreTrace, csvFlushBuffer, csvFlushTry, newCSVStorage,
      csvInitializeFile]
  · simp [jsonlStoreTrace, jsonlFlushBuffer, jsonlFlushTry, newJSONLStorage,
      jsonlInitializeFile]

/-- Witness for `C6_buffer_threshold`: a store below threshold grows the
buffer, a store at threshold flushes it. -/
theorem C6_buffer_threshold_witness :
    (csvStoreTrace none csvStOne sampleTrace).1.buffer =
      [sampleTrace, sampleTrace] ∧
    (csvStoreTrace none csvStT1 sampleTrace).1.buffer = [] ∧
    (jsonlStoreTrace none jsonlStT1 sampleTrace).1.buffer = [] := by
  have h := C6_buffer_threshold csvStOne sampleTrace jsonlStT1 sampleTrace
    sampleTrace sampleTrace sampleTrace sampleTrace
  have h1 := C6_buffer_threshold csvStT1 sampleTrace jsonlStT1 sampleTrace
    sampleTrace sampleTrace sampleTrace sampleTrace
  refine ⟨?_, ?_, ?_⟩
  · have hx := (h.1 (by simp [csvStOne])).1
    simpa [csvStOne] using hx
  · exact (h1.2.1 (by simp [csvStT1])).1
  · exact (h1.2.2.2.1 (by simp [jsonlStT1])).1

-- ---------------------------------------------------------------------------
-- C5: clear() does not truncate an existing backing file
-- ---------------------------------------------------------------------------

/-- C5, evaluated at the failing input: store one trace, flush it, then
`clear()`.  In both backends `clear()` empties the buffer but calls
`_initialize_file`, which returns without touching an existing file, so the
flushed row is still there and `load()` still returns it instead of the
empty list the claim (and the `clear` docstring) demands. -/
theorem C5_clear_leaves_file :
    (let st := (csvFlush none (csvStoreTrace none (newCSVStorage 100) sampleTrace).1).1
     csvClear st = { st with buffer := [] } ∧
     (csvClear st).file = some [traceToEnhancedCsvRow sampleTrace] ∧
     csvLoadTraces (csvClear st) none ≠ []) ∧
    (let stj := (jsonlFlush none (jsonlStoreTrace none (newJSONLStorage 100) sampleTrace).1).1
     jsonlClear stj = { stj with buffer := [] } ∧
     (jsonlClear stj).file = some [TraceEvent.to_dict sampleTrace] ∧
     jsonlLoadTraces (jsonlClear stj) none ≠ []) := by
  constructor
  · refine ⟨?_, ?_, ?_⟩ <;>
      simp [csvStoreTrace, csvFlush, csvFlushBuffer, csvFlushTry, newCSVStorage,
        csvInitializeFile, csvClear, csvLoadTraces]
  · refine ⟨?_, ?_, ?_⟩ <;>
      simp [jsonlStoreTrace, jsonlFlush, jsonlFlushBuffer, jsonlFlushTry,
        newJSONLStorage, jsonlInitializeFile, jsonlClear, jsonlLoadTraces]

-- ---------------------------------------------------------------------------
-- C7: empty numeric CSV cells deserialize to absent values
-- ---------------------------------------------------------------------------

/-- C7: in both CSV deserializers, an empty optional numeric cell
(`prompt_tokens`, `completion_tokens`, `total_tokens`, `cost_usd`,
`duration_ms`) yields an absent value, never zero; the deserializers are
total functions (the guarded `int(...)` / `float(...)` conversions are only
applied to nonempty cells, so nothing raises). -/
theorem C7_empty_cells_absent (row : CsvRow) (arow : AdapterRow) :
    (row.prompt_tokens = none →
      (csvRowToTrace row).token_usage.bind TokenUsage.prompt_tokens = none) ∧
    (row.completion_tokens = none →
      (csvRowToTrace row).token_usage.bind TokenUsage.completion_tokens = none) ∧
    (row.total_tokens = none →
      (csvRowToTrace row).token_usage.bind TokenUsage.total_tokens = none) ∧
    (row.cost_usd = none → (csvRowToTrace row).cost_usd = none) ∧
    (row.duration_ms = none → (csvRowToTrace row).duration_ms = none) ∧
    (arow.prompt_tokens = none →
      (rowToAction arow).token_usage.bind TokenUsage.prompt_tokens = none) ∧
    (arow.completion_tokens = none →
      (rowToAction arow).token_usage.bind TokenUsage.completion_tokens = none) ∧
    (arow.total_tokens = none →
      (rowToAction arow).token_usage.bind TokenUsage.total_tokens = none ∧
      (rowToAction arow).token_count = none) ∧
    (arow.cost_usd = none → (rowToAction arow).cost_usd = none) ∧
    (arow.duration_ms = none → (rowToAction arow).duration_ms = none) := by
  refine ⟨?_, ?_, ?_, ?_, ?_, ?_, ?_, ?_, ?_, ?_⟩ <;> intro h <;>
    simp [csvRowToTrace, rowToAction, h] <;> split <;> simp

/-- An adapter CSV row whose optional numeric cells are all empty. -/
def emptyNumericAdapterRow : AdapterRow :=
  { action_id := "a",
    session_id := "s",
    timestamp := "2025-01-01T00:00:00",
    action_type := "llm_call",
    input_data := "\x7b\x7d",
    output_data := "\x7b\x7d",
    model_name := "",
    prompt_tokens := none,
    completion_tokens := none,
    total_tokens := none,
    cost_usd := none,
    duration_ms := none,
    metadata := "\x7b\x7d" }

/-- A storage CSV row whose optional numeric cells are all empty. -/
def emptyNumericCsvRow : CsvRow :=
  { action_id := "a",
    session_id := "s",
    timestamp := "2025-01-01T00:00:00",
    action_type := "llm_call",
    input_data := {},
    output_data := {},
    model_name := "",
    prompt_tokens := none,
    completion_tokens := none,
    total_tokens := none,
    cost_usd := none,
    duration_ms := none,
    metadata := {},
    user_input := "",
    ai_response := "",
    tool_calls_summary := "",
    tool_results_summary := "",
    conversation_flow := "" }

/-- Witness for `C7_empty_cells_absent` on rows with all numeric cells
empty. -/
theorem C7_empty_cells_absent_witness :
    (csvRowToTrace emptyNumericCsvRow).token_usage.bind
      TokenUsage.prompt_tokens = none ∧
    (csvRowToTrace emptyNumericCsvRow).cost_usd = none ∧
    (rowToAction emptyNumericAdapterRow).token_usage.bind
      TokenUsage.prompt_tokens = none ∧
    (rowToAction emptyNumericAdapterRow).duration_ms = none := by
  have h := C7_empty_cells_absent emptyNumericCsvRow emptyNumericAdapterRow
  exact ⟨h.1 rfl, h.2.2.2.1 rfl, h.2.2.2.2.2.1 rfl, h.2.2.2.2.2.2.2.2.2 rfl⟩

-- ---------------------------------------------------------------------------
-- C10: zero writes as empty cell in the adapter, read back as absent
-- ---------------------------------------------------------------------------

/-- C10: in `CSVAdapter`, a zero token count, cost or duration is written
through `x or ""` as an empty cell — the very cell an absent value writes —
so the stored row for a zero is identical to the row for an absent value,
the read-back value is absent (`None`), and zero is indistinguishable from
absent after the write/read round trip. -/
theorem C10_zero_cells_indistinguishable (a : AgentAction) (u : TokenUsage) :
    adapterLogActionRow { a with token_usage := some { u with prompt_tokens := some 0 } } =
      adapterLogActionRow { a with token_usage := some { u with prompt_tokens := none } } ∧
    adapterLogActionRow { a with token_usage := some { u with completion_tokens := some 0 } } =
      adapterLogActionRow { a with token_usage := some { u with completion_tokens := none } } ∧
    adapterLogActionRow { a with token_usage := some { u with total_tokens := some 0 } } =
      adapterLogActionRow { a with token_usage := some { u with total_tokens := none } } ∧
    adapterLogActionRow { a with cost_usd := some 0 } =
      adapterLogActionRow { a with cost_usd := none } ∧
    adapterLogActionRow { a with duration_ms := some 0 } =
      adapterLogActionRow { a with duration_ms := none } ∧
    (adapterLogActionRow { a with token_usage := some { u with prompt_tokens := some 0 } }).prompt_tokens = none ∧
    (rowToAction (adapterLogActionRow { a with token_usage := some { u with prompt_tokens := some 0 } })).token_usage.bind TokenUsage.prompt_tokens = none ∧
    (rowToAction (adapterLogActionRow { a with cost_usd := some 0 })).cost_usd = none ∧
    (rowToAction (adapterLogActionRow { a with duration_ms := some 0 })).duration_ms = none := by
  refine ⟨?_, ?_, ?_, ?_, ?_, ?_, ?_, ?_, ?_⟩ <;>
    simp [adapterLogActionRow, rowToAction, pyIntOrEmptyCell, pyRatOrEmptyCell,
      pyTruthyInt] <;>
    split <;> simp

-- ---------------------------------------------------------------------------
-- C9: export format dispatch
-- ---------------------------------------------------------------------------

/-- C9, counterexample: the claim says `export_traces` raises for every
format string other than the literal "csv", "json", "jsonl"; but the code
lowercases first, so the string "CSV" — which is none of those three — is
accepted without raising. -/
theorem C9_counterexample :
    export_traces_check "CSV" = .ok () ∧
    "CSV" ≠ "csv" ∧ "CSV" ≠ "json" ∧ "CSV" ≠ "jsonl" := by
  refine ⟨rfl, by decide, by decide, by decide⟩

/-- C9 (amended): `export_traces` raises `ValueError` exactly for the format
strings whose lowercased form is none of "csv", "json", "jsonl", and accepts
(no raise) exactly those whose lowercased form is one of the three; the
error carries the offending format and, unlike flush failures, is not
swallowed. -/
theorem C9_export_format (f : String) :
    isOkE (export_traces_check f) =
      (pyLower f == "csv" || pyLower f == "json" || pyLower f == "jsonl") ∧
    ((pyLower f == "csv" || pyLower f == "json" || pyLower f == "jsonl") = false →
      export_traces_check f = .error ("Unsupported export format: " ++ f)) := by
  constructor
  · by_cases h1 : pyLower f == "csv" <;> by_cases h2 : pyLower f == "json" <;>
      by_cases h3 : pyLower f == "jsonl" <;>
      simp [export_traces_check, isOkE, h1, h2, h3]
  · intro h
    simp only [Bool.or_eq_false_iff] at h
    simp [export_traces_check, h.1.1, h.1.2, h.2, isOkE]

/-- Witness for `C9_export_format`: the format "xml" is rejected with the
`ValueError` message. -/
theorem C9_export_format_witness :
    export_traces_check "xml" = .error ("Unsupported export format: " ++ "xml") :=
  (C9_export_format "xml").2 (by decide)

-- ---------------------------------------------------------------------------
-- C8: session identifier invariant of AgentLogger
-- ---------------------------------------------------------------------------

/-- A fixed-width hex rendering always has its requested width. -/
theorem hexStr_length (len : Nat) : ∀ n, (hexStr len n).length = len := by
  induction len with
  | zero => intro n; rfl
  | succ m ih => intro n; simp [hexStr, ih]

/-- The canonical uuid string has 36 characters. -/
theorem uuid4Str_data_length (r : Nat) : (uuid4Str r).data.length = 36 := by
  simp [uuid4Str, hexStr_length]

/-- A generated session identifier is never the empty string. -/
theorem uuid4Str_ne_empty (r : Nat) : uuid4Str r ≠ "" := by
  intro h
  have h36 := uuid4Str_data_length r
  rw [h] at h36
  exact absurd h36 (by decide)

/-- A request used by closed theorems and witnesses. -/
def sampleRequest : LogRequest :=
  { action_type := "llm_call",
    input_data := "\x7b\x7d",
    output_data := "\x7b\x7d" }

/-- C8: a logger's session id is never empty (a fresh identifier is
generated at construction when the caller supplies none or an empty one);
every record produced by `_log_action` carries the logger's current session
id, which the call leaves unchanged — hence every record of a run of log
calls carries the id the logger started the run with — and
`start_new_session` replaces it with a freshly generated, nonempty
identifier that it also returns. -/
theorem C8_session_invariant :
    (∀ sid seed, (mkAgentLogger sid seed).session_id ≠ "") ∧
    (∀ L r, (logAction L r).2.session_id = L.session_id ∧
      (logAction L r).1.session_id = L.session_id) ∧
    (∀ L rs, ∀ a ∈ (runLog L rs).2, a.session_id = L.session_id) ∧
    (∀ L, (startNewSession L).1.session_id = uuid4Str L.seed ∧
      (startNewSession L).2 = uuid4Str L.seed ∧ uuid4Str L.seed ≠ "") := by
  have hlog : ∀ L r, (logAction L r).2.session_id = L.session_id ∧
      (logAction L r).1.session_id = L.session_id := by
    intro L r
    constructor
    · simp only [logAction, AgentAction.calculateCost]
      split <;> rfl
    · rfl
  refine ⟨?_, hlog, ?_, ?_⟩
  · intro sid seed
    cases sid with
    | none => exact uuid4Str_ne_empty seed
    | some s =>
      dsimp [mkAgentLogger]
      split
      · assumption
      · exact uuid4Str_ne_empty seed
  · intro L rs
    induction rs generalizing L with
    | nil => intro a ha; simp [runLog] at ha
    | cons r rs ih =>
      intro a ha
      simp only [runLog] at ha
      rcases List.mem_cons.mp ha with rfl | ha
      · exact (hlog L r).1
      · have := ih (logAction L r).1 a ha
        rwa [(hlog L r).2] at this
  · intro L
    exact ⟨rfl, rfl, uuid4Str_ne_empty L.seed⟩

/-- Witness for `C8_session_invariant`: a concrete logger built with an
empty supplied id gets a nonempty generated one, and the record produced by
a concrete one-request run carries the logger's session id. -/
theorem C8_session_invariant_witness :
    (mkAgentLogger (some "") 0).session_id ≠ "" ∧
    (logAction (mkAgentLogger (some "sess") 0) sampleRequest).2.session_id =
      (mkAgentLogger (some "sess") 0).session_id := by
  refine ⟨C8_session_invariant.1 (some "") 0, ?_⟩
  exact C8_session_invariant.2.2.1 (mkAgentLogger (some "sess") 0)
    [sampleRequest] (logAction (mkAgentLogger (some "sess") 0) sampleRequest).2
    (by simp [runLog])

-- ---------------------------------------------------------------------------
-- C4: round trip through both backends preserves the declared fields
-- ---------------------------------------------------------------------------

/-- One CSV write/read round trip preserves the claim fields. -/
theorem claimFields_csv_roundtrip (t : TraceEvent) :
    claimFields (csvRowToTrace (traceToEnhancedCsvRow t)) = claimFields t := by
  cases htu : t.token_usage with
  | none =>
    simp [claimFields, csvRowToTrace, traceToEnhancedCsvRow,
      TraceEvent.to_csv_row, htu]
  | some u =>
    rcases u with ⟨p, c, tot⟩
    cases p <;> cases c <;> cases tot <;>
      simp [claimFields, csvRowToTrace, traceToEnhancedCsvRow,
        TraceEvent.to_csv_row, htu]

/-- One JSONL write/read round trip preserves the claim fields. -/
theorem claimFields_jsonl_roundtrip (t : TraceEvent) :
    claimFields (traceFromDict (TraceEvent.to_dict t)) = claimFields t := by
  simp [claimFields, traceFromDict, TraceEvent.to_dict]

/-- Storing a batch into a fresh CSV store and flushing leaves exactly the
serialized batch in the file and an empty buffer, whatever the threshold. -/
theorem csvStoreFlush_file (bs : Nat) (ts : List TraceEvent) :
    (csvFlush none (csvStoreTraces none (newCSVStorage bs) ts).1).1.file =
      some (ts.map traceToEnhancedCsvRow) ∧
    (csvFlush none (csvStoreTraces none (newCSVStorage bs) ts).1).1.buffer = [] := by
  by_cases hts : ts = []
  · subst hts
    by_cases h : bs ≤ 0 <;>
      simp [csvStoreTraces, csvFlush, csvFlushBuffer, csvFlushTry,
        newCSVStorage, csvInitializeFile, h]
  · by_cases h : bs ≤ ts.length <;>
      simp [csvStoreTraces, csvFlush, csvFlushBuffer, csvFlushTry,
        newCSVStorage, csvInitializeFile, h, hts]

/-- Storing a batch into a fresh JSONL store and flushing leaves exactly the
serialized batch in the file and an empty buffer, whatever the threshold. -/
theorem jsonlStoreFlush_file (bs : Nat) (ts : List TraceEvent) :
    (jsonlFlush none (jsonlStoreTraces none (newJSONLStorage bs) ts).1).1.file =
      some (ts.map TraceEvent.to_dict) ∧
    (jsonlFlush none (jsonlStoreTraces none (newJSONLStorage bs) ts).1).1.buffer = [] := by
  by_cases hts : ts = []
  · subst hts
    by_cases h : bs ≤ 0 <;>
      simp [jsonlStoreTraces, jsonlFlush, jsonlFlushBuffer, jsonlFlushTry,
        newJSONLStorage, jsonlInitializeFile, h]
  · by_cases h : bs ≤ ts.length <;>
      simp [jsonlStoreTraces, jsonlFlush, jsonlFlushBuffer, jsonlFlushTry,
        newJSONLStorage, jsonlInitializeFile, h, hts]

/-- C4: storing any list of N records through a fresh Buffered Store (any
threshold) and flushing, then loading, returns N records equal to the
originals in id, session_id, kind, the three token counts, and cost — for
the CSV backend and for the JSONL backend alike. -/
theorem C4_round_trip (bs : Nat) (ts : List TraceEvent) :
    (csvLoadTraces (csvFlush none (csvStoreTraces none (newCSVStorage bs) ts).1).1
        none).map claimFields = ts.map claimFields ∧
    (jsonlLoadTraces (jsonlFlush none (jsonlStoreTraces none (newJSONLStorage bs) ts).1).1
        none).map claimFields = ts.map claimFields := by
  constructor
  · have hf := (csvStoreFlush_file bs ts).1
    simp only [csvLoadTraces, hf, List.filter_true, List.map_map]
    exact List.map_congr_left (fun t _ => claimFields_csv_roundtrip t)
  · have hf := (jsonlStoreFlush_file bs ts).1
    simp only [jsonlLoadTraces, hf, List.map_map]
    exact List.map_congr_left (fun t _ => claimFields_jsonl_roundtrip t)
